import Mathlib

/-!
Shallow embedding of the request-instrumentation and telemetry layer of the
kodekloud-records-store web service (src/api/main.py, src/api/telemetry.py,
src/api/routes.py).

External collaborators (the ASGI framework, the OpenTelemetry SDK, the
Prometheus client, the database session and the Celery task queue) are modelled
as explicit inputs and as an emitted effect trace: each observable action the
Python code performs on a collaborator (starting a span, incrementing a
counter, emitting a log record, committing a row, enqueueing a task) becomes
one constructor of an effect type, and each Python function becomes a Lean
function from its inputs and the collaborator behaviour to its outcome plus
the ordered list of effects it performed.  Exceptions are modelled as values:
a function that can raise returns an outcome type with a `raised` constructor.
-/

namespace RecordStore

/-- A Python exception value: its runtime class name (`type(e).__name__`) and
its message (`str(e)`). -/
structure Exc where
  typeName : String
  message : String
deriving DecidableEq, Repr

/-! ## Request instrumentation middleware (src/api/main.py, `metrics_middleware`) -/

/-- The parts of the inbound request the middleware reads: `request.method`,
`request.url.path` and `str(request.url)`. -/
structure Request where
  method : String
  urlPath : String
  url : String
deriving DecidableEq, Repr

/-- The result of `await call_next(request)`: either a response with a status
code, or a raised exception. -/
inductive DownstreamResult
  | ok (statusCode : Nat)
  | exn (e : Exc)
deriving DecidableEq, Repr

/-- One observable action of the middleware on its collaborators, in program
order. -/
inductive Effect
  | spanStart (name httpMethod httpUrl httpRoute : String)
  | spanSetStatusCode (statusCode : Nat)
  | spanSetStatusError (message : Option String)
  | spanRecordException (e : Exc)
  | requestCountInc (method endpoint : String) (statusCode : Nat)
  | durationObserve (method endpoint : String)
  | errorCountInc (method endpoint errorType : String)
  | logInfo (message method endpoint : String)
  | logError (message method endpoint : String)
  | spanEnd
deriving DecidableEq, Repr

/-- What the middleware hands back to the ASGI framework: the response
unchanged, or the re-raised exception. -/
inductive MwOutcome
  | response (statusCode : Nat)
  | raised (e : Exc)
deriving DecidableEq, Repr

/-- Embedding of `metrics_middleware` (src/api/main.py lines 113-216).
`method = request.method`, `endpoint = request.url.path` (the raw path), a
span named `"{method} {endpoint}"` is opened, the downstream handler runs,
and then either the normal-completion branch (status attribute, error status
mark when `status_code >= 400`, request count, duration, `request_processed`
log, and for `status_code >= 400` one error-counter increment labelled
`http_{status_code}` plus one `http_error` log) or the `except` branch (error
status with the exception message, `record_exception`, one error-counter
increment labelled with the exception class name, one `request_failed` log,
re-raise) executes; the `with` block closes the span on both paths. -/
def metrics_middleware (req : Request) (downstream : DownstreamResult) :
    MwOutcome × List Effect :=
  let method := req.method
  let endpoint := req.urlPath
  let spanOpen := Effect.spanStart (method ++ " " ++ endpoint) method req.url endpoint
  match downstream with
  | .ok statusCode =>
      (MwOutcome.response statusCode,
        [spanOpen, Effect.spanSetStatusCode statusCode]
          ++ (if statusCode ≥ 400 then [Effect.spanSetStatusError none] else [])
          ++ [Effect.requestCountInc method endpoint statusCode,
              Effect.durationObserve method endpoint,
              Effect.logInfo "request_processed" method endpoint]
          ++ (if statusCode ≥ 400 then
                [Effect.errorCountInc method endpoint ("http_" ++ toString statusCode),
                 Effect.logError "http_error" method endpoint]
              else [])
          ++ [Effect.spanEnd])
  | .exn e =>
      (MwOutcome.raised e,
        [spanOpen,
         Effect.spanSetStatusError (some e.message),
         Effect.spanRecordException e,
         Effect.errorCountInc method endpoint e.typeName,
         Effect.logError "request_failed" method endpoint,
         Effect.spanEnd])

/-- Is this effect an increment of the `http_request_errors_total` counter? -/
def isErrorInc : Effect → Bool
  | .errorCountInc _ _ _ => true
  | _ => false

/-- Is this effect an increment of the `http_requests_total` counter? -/
def isRequestInc : Effect → Bool
  | .requestCountInc _ _ _ => true
  | _ => false

/-- Is this effect an observation of the `http_request_duration_seconds`
histogram? -/
def isDurationObs : Effect → Bool
  | .durationObserve _ _ => true
  | _ => false

/-- Is this effect the emission of an error-level log with the given
message? -/
def isLogErrorMsg (msg : String) : Effect → Bool
  | .logError m _ _ => m == msg
  | _ => false

/-- How many increments of the error counter a trace contains. -/
def errorIncCount (effs : List Effect) : Nat := (effs.filter isErrorInc).length

/-- How many increments of the request counter a trace contains. -/
def requestIncCount (effs : List Effect) : Nat := (effs.filter isRequestInc).length

/-- How many duration observations a trace contains. -/
def durationObsCount (effs : List Effect) : Nat := (effs.filter isDurationObs).length

/-- How many error-level log records with the given message a trace
contains. -/
def logErrorCount (msg : String) (effs : List Effect) : Nat :=
  (effs.filter (isLogErrorMsg msg)).length

/-- C1: when the downstream handler raises, the middleware sets the span
status to error with the exception's message, records the exception on the
span, increments the error counter exactly once and with `error_kind` equal
to the exception's class name, emits exactly one `request_failed` error log,
and re-raises the original exception unchanged (same type and message, since
`Exc` carries both). -/
theorem mw_exception_path (req : Request) (e : Exc) :
    (metrics_middleware req (.exn e)).1 = MwOutcome.raised e ∧
    Effect.spanSetStatusError (some e.message) ∈ (metrics_middleware req (.exn e)).2 ∧
    Effect.spanRecordException e ∈ (metrics_middleware req (.exn e)).2 ∧
    errorIncCount (metrics_middleware req (.exn e)).2 = 1 ∧
    Effect.errorCountInc req.method req.urlPath e.typeName ∈ (metrics_middleware req (.exn e)).2 ∧
    logErrorCount "request_failed" (metrics_middleware req (.exn e)).2 = 1 := by
  refine ⟨rfl, ?_, ?_, ?_, ?_, ?_⟩ <;>
    simp [metrics_middleware, errorIncCount, logErrorCount, isErrorInc, isLogErrorMsg,
      List.filter]

/-- C2: when the downstream handler completes normally, the middleware
returns the response status unchanged, records the request count and the
duration exactly once unconditionally, marks the span error exactly when the
status is at least 400, increments the error counter exactly once with
`error_kind = "http_" ++ status` exactly when the status is at least 400 and
never otherwise, and emits the extra `http_error` log exactly in that case. -/
theorem mw_success_path (req : Request) (s : Nat) :
    (metrics_middleware req (.ok s)).1 = MwOutcome.response s ∧
    requestIncCount (metrics_middleware req (.ok s)).2 = 1 ∧
    durationObsCount (metrics_middleware req (.ok s)).2 = 1 ∧
    (Effect.spanSetStatusError none ∈ (metrics_middleware req (.ok s)).2 ↔ 400 ≤ s) ∧
    errorIncCount (metrics_middleware req (.ok s)).2 = (if 400 ≤ s then 1 else 0) ∧
    (Effect.errorCountInc req.method req.urlPath ("http_" ++ toString s)
        ∈ (metrics_middleware req (.ok s)).2 ↔ 400 ≤ s) ∧
    logErrorCount "http_error" (metrics_middleware req (.ok s)).2 =
      (if 400 ≤ s then 1 else 0) := by
  by_cases h : 400 ≤ s <;>
    refine ⟨rfl, ?_, ?_, ?_, ?_, ?_, ?_⟩ <;>
      simp [metrics_middleware, requestIncCount, durationObsCount, errorIncCount,
        logErrorCount, isRequestInc, isDurationObs, isErrorInc, isLogErrorMsg,
        List.filter, h]

/-- C5: on the exception exit path the request-count and duration metrics are
left unchanged (zero increments, zero observations; only the error counter is
incremented), while on the normal-completion path count and duration are each
recorded exactly once. -/
theorem mw_exception_frame (req : Request) (e : Exc) (s : Nat) :
    requestIncCount (metrics_middleware req (.exn e)).2 = 0 ∧
    durationObsCount (metrics_middleware req (.exn e)).2 = 0 ∧
    errorIncCount (metrics_middleware req (.exn e)).2 = 1 ∧
    requestIncCount (metrics_middleware req (.ok s)).2 = 1 ∧
    durationObsCount (metrics_middleware req (.ok s)).2 = 1 := by
  by_cases h : 400 ≤ s <;>
    refine ⟨?_, ?_, ?_, ?_, ?_⟩ <;>
      simp [metrics_middleware, requestIncCount, durationObsCount, errorIncCount,
        isRequestInc, isDurationObs, isErrorInc, List.filter, h]

/-- C4: the middleware labels its metrics with the raw request path
(`endpoint = request.url.path`), not with the matched route template.  For a
request resolved by the `/orders/{order_id}` route at the concrete path
`/orders/123`, the request counter is incremented with endpoint label
`/orders/123`, which differs from the route template, so the label carries
the caller-supplied identifier. -/
theorem mw_raw_path_label :
    Effect.requestCountInc "GET" "/orders/123" 200 ∈
      (metrics_middleware ⟨"GET", "/orders/123", "http://api/orders/123"⟩ (.ok 200)).2 ∧
    "/orders/123" ≠ "/orders/{order_id}" := by
  constructor
  · simp [metrics_middleware]
  · decide

/-! ## Telemetry setup (src/api/telemetry.py, `setup_telemetry`) -/

/-- One of the registration steps the `try` block of `setup_telemetry`
performs, in program order: create the `TracerProvider`, create the
`OTLPSpanExporter`, add the `BatchSpanProcessor`, call
`trace.set_tracer_provider`, call `propagate.set_global_textmap`. -/
inductive RegStep
  | createProvider
  | createExporter
  | addSpanProcessor
  | setGlobalProvider
  | setGlobalPropagator
deriving DecidableEq, Repr

/-- The behaviour of the collaborators `setup_telemetry` touches: whether the
socket connectivity probe to `jaeger:4317` raises, whether (and at which
step) the registration block raises, and whether the post-registration test
span block raises. -/
structure TelemetryEnv where
  probeError : Option Exc
  regFailAt : Option RegStep
  testSpanError : Option Exc
deriving DecidableEq, Repr

/-- The module-level mutable state of telemetry.py: the
`_telemetry_initialized` flag. -/
structure TelemetryState where
  initialized : Bool
deriving DecidableEq, Repr

/-- One observable action of `setup_telemetry`. -/
inductive TelEvent
  | probeSucceeded
  | probeFailureLogged
  | reg (step : RegStep)
  | skippedLogged
  | setupErrorLogged
  | testSpanCreated
deriving DecidableEq, Repr

/-- What `setup_telemetry` does at its boundary: return a boolean, or let an
exception escape.  The embedding keeps the `raises` alternative so that
"never raises past its boundary" is a statement about the function, not about
the type. -/
inductive SetupOutcome
  | returns (b : Bool)
  | raises (e : Exc)
deriving DecidableEq, Repr

/-- The registration steps in the order the `try` block performs them. -/
def regOrder : List RegStep :=
  [.createProvider, .createExporter, .addSpanProcessor,
   .setGlobalProvider, .setGlobalPropagator]

/-- The registration events that actually happen: all five when nothing
raises, otherwise the steps strictly before the raising one. -/
def regEvents : Option RegStep → List TelEvent
  | none => regOrder.map TelEvent.reg
  | some st => (regOrder.takeWhile (fun s => s != st)).map TelEvent.reg

/-- The events of the socket connectivity probe: its `try` block either
succeeds or the `except` branch logs the failure and falls through. -/
def probeEvents : Option Exc → List TelEvent
  | none => [TelEvent.probeSucceeded]
  | some _ => [TelEvent.probeFailureLogged]

/-- Embedding of `setup_telemetry` (src/api/telemetry.py lines 30-105).  If
`_telemetry_initialized` is already set, it logs and returns `False` at once.
Otherwise the connectivity probe runs inside its own `try/except` (a failure
is logged and swallowed); then the registration `try` block runs: on an
exception at any registration step the `except` branch logs and returns
`False` with the flag still unset; after all five steps the flag is set to
`True`, and the test-span block runs inside the same `try`, so a failure
there is also logged and answered with `False` — but the flag, already set,
stays `True`.  On full success it returns `True`.  No path lets an exception
escape. -/
def setup_telemetry (env : TelemetryEnv) (s : TelemetryState) :
    SetupOutcome × TelemetryState × List TelEvent :=
  if s.initialized then
    (SetupOutcome.returns false, s, [TelEvent.skippedLogged])
  else
    let pe := probeEvents env.probeError
    match env.regFailAt with
    | some st =>
        (SetupOutcome.returns false, ⟨false⟩,
          pe ++ regEvents (some st) ++ [TelEvent.setupErrorLogged])
    | none =>
        match env.testSpanError with
        | some _ =>
            (SetupOutcome.returns false, ⟨true⟩,
              pe ++ regEvents none ++ [TelEvent.setupErrorLogged])
        | none =>
            (SetupOutcome.returns true, ⟨true⟩,
              pe ++ regEvents none ++ [TelEvent.testSpanCreated])

/-- How many times a given registration step occurs in an event trace. -/
def regCount (st : RegStep) (evs : List TelEvent) : Nat :=
  (evs.filter (fun ev => ev == TelEvent.reg st)).length

/-- Does this outcome return a value (as opposed to letting an exception
escape)? -/
def isReturns : SetupOutcome → Bool
  | .returns _ => true
  | .raises _ => false

/-- An environment in which every collaborator of `setup_telemetry`
succeeds. -/
def envAllOk : TelemetryEnv := ⟨none, none, none⟩

/-- An environment in which the connectivity probe to the collector raises
and everything else succeeds. -/
def envProbeFail : TelemetryEnv := ⟨some ⟨"OSError", "connection refused"⟩, none, none⟩

/-- An environment in which the registration block raises while creating the
exporter. -/
def envRegFail : TelemetryEnv := ⟨none, some RegStep.createExporter, none⟩

/-- C3: from the uninitialized state, a call to `setup_telemetry` whose
registration and test-span steps all succeed installs the global tracer
provider exactly once and the exporter exactly once and returns `True`; the
flag is then set, and any subsequent call — whatever its environment —
returns `False` immediately, leaves the state unchanged, and performs no
registration at all (its whole event trace is the skip log). -/
theorem setup_idempotent (env env2 : TelemetryEnv)
    (hreg : env.regFailAt = none) (hts : env.testSpanError = none) :
    (setup_telemetry env ⟨false⟩).1 = SetupOutcome.returns true ∧
    (setup_telemetry env ⟨false⟩).2.1.initialized = true ∧
    regCount RegStep.setGlobalProvider (setup_telemetry env ⟨false⟩).2.2 = 1 ∧
    regCount RegStep.createExporter (setup_telemetry env ⟨false⟩).2.2 = 1 ∧
    setup_telemetry env2 (setup_telemetry env ⟨false⟩).2.1 =
      (SetupOutcome.returns false, (setup_telemetry env ⟨false⟩).2.1,
        [TelEvent.skippedLogged]) := by
  obtain ⟨pe, rf, ts⟩ := env
  cases rf with
  | some st => exact absurd hreg (by simp)
  | none =>
    cases ts with
    | some e => exact absurd hts (by simp)
    | none => cases pe <;> exact ⟨rfl, rfl, rfl, rfl, rfl⟩

/-- C3 witness: a concrete all-successful first call returns `True` and the
second call returns `False` with only the skip log. -/
theorem setup_idempotent_witness :
    (setup_telemetry envAllOk ⟨false⟩).1 = SetupOutcome.returns true ∧
    setup_telemetry envAllOk (setup_telemetry envAllOk ⟨false⟩).2.1 =
      (SetupOutcome.returns false, (setup_telemetry envAllOk ⟨false⟩).2.1,
        [TelEvent.skippedLogged]) := by
  have h := setup_idempotent envAllOk envAllOk rfl rfl
  exact ⟨h.1, h.2.2.2.2⟩

/-- C6: `setup_telemetry` never lets an exception escape for any environment
and any starting state; and when the connectivity probe fails on a fresh
start, the failure is logged and swallowed — the call still returns `True`
exactly when the remaining (registration and test-span) steps succeed, so
the probe failure is not fatal. -/
theorem setup_never_raises (env : TelemetryEnv) (s : TelemetryState) (e : Exc) :
    isReturns (setup_telemetry env s).1 = true ∧
    (env.probeError = some e → s.initialized = false →
      TelEvent.probeFailureLogged ∈ (setup_telemetry env s).2.2 ∧
      ((setup_telemetry env s).1 = SetupOutcome.returns true ↔
        env.regFailAt = none ∧ env.testSpanError = none)) := by
  obtain ⟨pe, rf, ts⟩ := env
  obtain ⟨init⟩ := s
  cases init <;> cases pe <;> cases rf <;> cases ts <;>
    simp [setup_telemetry, isReturns, probeEvents, regEvents, regOrder]

/-- C6 witness: with a concrete failing probe and all other steps succeeding,
the call returns a value, the probe failure is logged, and setup still
succeeds. -/
theorem setup_never_raises_witness :
    isReturns (setup_telemetry envProbeFail ⟨false⟩).1 = true ∧
    TelEvent.probeFailureLogged ∈ (setup_telemetry envProbeFail ⟨false⟩).2.2 ∧
    (setup_telemetry envProbeFail ⟨false⟩).1 = SetupOutcome.returns true := by
  have h := setup_never_raises envProbeFail ⟨false⟩ ⟨"OSError", "connection refused"⟩
  exact ⟨h.1, (h.2 rfl rfl).1, ((h.2 rfl rfl).2).2 ⟨rfl, rfl⟩⟩

/-- C9: the `_telemetry_initialized` flag is assigned only after the
provider, exporter, processor and propagator registrations; if the
registration block raises at any step, the call returns `False` and the flag
stays `False`, so a later call in a healthy environment performs the full
registration (global provider and exporter included) and returns `True`
instead of skipping. -/
theorem setup_flag_after_registration (env env2 : TelemetryEnv) (st : RegStep)
    (h1 : env.regFailAt = some st)
    (h2 : env2.regFailAt = none) (h3 : env2.testSpanError = none) :
    (setup_telemetry env ⟨false⟩).1 = SetupOutcome.returns false ∧
    (setup_telemetry env ⟨false⟩).2.1.initialized = false ∧
    (setup_telemetry env2 (setup_telemetry env ⟨false⟩).2.1).1 =
      SetupOutcome.returns true ∧
    TelEvent.reg RegStep.setGlobalProvider ∈
      (setup_telemetry env2 (setup_telemetry env ⟨false⟩).2.1).2.2 ∧
    TelEvent.reg RegStep.createExporter ∈
      (setup_telemetry env2 (setup_telemetry env ⟨false⟩).2.1).2.2 := by
  obtain ⟨pe, rf, ts⟩ := env
  obtain ⟨pe2, rf2, ts2⟩ := env2
  cases rf with
  | none => exact absurd h1 (by simp)
  | some st1 =>
    cases rf2 with
    | some st3 => exact absurd h2 (by simp)
    | none =>
      cases ts2 with
      | some e3 => exact absurd h3 (by simp)
      | none =>
        cases pe <;> cases pe2 <;>
          refine ⟨rfl, rfl, rfl, ?_, ?_⟩ <;>
            simp [setup_telemetry, probeEvents, regEvents, regOrder]

/-- C9 witness: after a concrete registration failure the flag is still
unset, and a retry in a healthy environment succeeds. -/
theorem setup_flag_after_registration_witness :
    (setup_telemetry envRegFail ⟨false⟩).2.1.initialized = false ∧
    (setup_telemetry envAllOk (setup_telemetry envRegFail ⟨false⟩).2.1).1 =
      SetupOutcome.returns true := by
  have h := setup_flag_after_registration envRegFail envAllOk RegStep.createExporter rfl rfl rfl
  exact ⟨h.2.1, h.2.2.1⟩

/-! ## Checkout handler (src/api/routes.py, `checkout`)

The persistence layer and the Celery task queue are external collaborators
(the spec treats them as a simple table store and an opaque enqueue
interface), so the database is a value threaded through the handler and the
enqueue call's behaviour is an input. -/

/-- A row of the products table, as far as `checkout` reads it (only the id
is consulted). -/
structure Product where
  id : Nat
  name : String
deriving DecidableEq, Repr

/-- The request body schema `OrderCreate(product_id, quantity)`. -/
structure OrderCreate where
  product_id : Nat
  quantity : Nat
deriving DecidableEq, Repr

/-- A row of the orders table; `id` is assigned by the database on commit. -/
structure OrderRow where
  id : Nat
  product_id : Nat
  quantity : Nat
deriving DecidableEq, Repr

/-- The database as the handler sees it: the products table, the committed
orders table, and the id the next committed order receives. -/
structure Db where
  products : List Product
  orders : List OrderRow
  nextOrderId : Nat
deriving DecidableEq, Repr

/-- Behaviour of `process_order.delay(...)`: either it returns a task handle
with an id, or it raises. -/
inductive EnqueueOutcome
  | ok (taskId : String)
  | fail (e : Exc)
deriving DecidableEq, Repr

/-- A JSON scalar used in a response body. -/
inductive JsonVal
  | s (v : String)
  | n (v : Nat)
deriving DecidableEq, Repr

/-- What the `checkout` call yields at its boundary: an HTTP response with a
status code and a JSON-object body given as ordered key-value pairs (an
`HTTPException(status_code, detail)` is rendered by the framework as a
response with that status and body `detail: ...`), or a raised exception. -/
inductive CheckoutOutcome
  | httpResponse (statusCode : Nat) (body : List (String × JsonVal))
  | raised (e : Exc)
deriving DecidableEq, Repr

/-- One observable action of `checkout` on its collaborators, in program
order. -/
inductive CkEvent
  | commitOrder (row : OrderRow)
  | enqueueProcessOrder (product_id quantity : Nat)
  | addBackgroundTask (order_id : Nat)
deriving DecidableEq, Repr

/-- `db.query(Product).filter(Product.id == pid).first()`. -/
def findProduct (db : Db) (pid : Nat) : Option Product :=
  db.products.find? (fun p => p.id == pid)

/-- Embedding of `checkout` (src/api/routes.py lines 44-70).  It looks the
product up; if absent it raises `HTTPException(404, "Product not found")`
(rendered as a 404 response).  Otherwise it adds the order row, commits it
(the row is persisted and receives its id), then calls
`process_order.delay(order_data)`; if that call raises, the exception
propagates and the committed row stays in the database.  On success it
queues the confirmation-email background task and returns the 200 body with
`message`, `order_id` and `task_id`. -/
def checkout (db : Db) (order : OrderCreate) (enq : EnqueueOutcome) :
    CheckoutOutcome × Db × List CkEvent :=
  match findProduct db order.product_id with
  | none =>
      (CheckoutOutcome.httpResponse 404 [("detail", JsonVal.s "Product not found")], db, [])
  | some _ =>
      let row : OrderRow := ⟨db.nextOrderId, order.product_id, order.quantity⟩
      let db2 : Db := ⟨db.products, db.orders ++ [row], db.nextOrderId + 1⟩
      match enq with
      | .fail e => (CheckoutOutcome.raised e, db2, [CkEvent.commitOrder row])
      | .ok tid =>
          (CheckoutOutcome.httpResponse 200
             [("message", JsonVal.s "Order received, processing in the background"),
              ("order_id", JsonVal.n row.id),
              ("task_id", JsonVal.s tid)],
           db2,
           [CkEvent.commitOrder row,
            CkEvent.enqueueProcessOrder order.product_id order.quantity,
            CkEvent.addBackgroundTask row.id])

/-- C8: a `POST /checkout` body with `product_id = 1, quantity = 2` returns
status 200 with a body whose keys include `order_id` and `task_id` when a
product with id 1 exists, and returns status 404 with body
`detail: Product not found` when none does. -/
theorem checkout_response_contract (db : Db) (tid : String) :
    ((findProduct db 1).isSome →
      ∃ body, (checkout db ⟨1, 2⟩ (.ok tid)).1 = CheckoutOutcome.httpResponse 200 body ∧
        "order_id" ∈ body.map Prod.fst ∧ "task_id" ∈ body.map Prod.fst) ∧
    (findProduct db 1 = none →
      (checkout db ⟨1, 2⟩ (.ok tid)).1 =
        CheckoutOutcome.httpResponse 404 [("detail", JsonVal.s "Product not found")]) := by
  constructor
  · intro hsome
    obtain ⟨p, hp⟩ := Option.isSome_iff_exists.mp hsome
    refine ⟨[("message", JsonVal.s "Order received, processing in the background"),
             ("order_id", JsonVal.n db.nextOrderId),
             ("task_id", JsonVal.s tid)], ?_, ?_, ?_⟩ <;> simp [checkout, hp]
  · intro hnone
    simp [checkout, hnone]

/-- C8 witness: with a one-product database the checkout succeeds with the
required keys, and with an empty database it yields the 404 body. -/
theorem checkout_response_contract_witness :
    ((findProduct ⟨[⟨1, "vinyl"⟩], [], 1⟩ 1).isSome ∧
      ∃ body, (checkout ⟨[⟨1, "vinyl"⟩], [], 1⟩ ⟨1, 2⟩ (.ok "t-1")).1 =
          CheckoutOutcome.httpResponse 200 body ∧
        "order_id" ∈ body.map Prod.fst ∧ "task_id" ∈ body.map Prod.fst) ∧
    (findProduct ⟨[], [], 1⟩ 1 = none ∧
      (checkout ⟨[], [], 1⟩ ⟨1, 2⟩ (.ok "t-1")).1 =
        CheckoutOutcome.httpResponse 404 [("detail", JsonVal.s "Product not found")]) := by
  exact ⟨⟨by decide, (checkout_response_contract ⟨[⟨1, "vinyl"⟩], [], 1⟩ "t-1").1 (by decide)⟩,
    ⟨by decide, (checkout_response_contract ⟨[], [], 1⟩ "t-1").2 (by decide)⟩⟩

/-- C10: when the product exists, the order row is committed before the
enqueue call is attempted (the commit event precedes any enqueue event, and
on the successful path the trace is commit, enqueue, background-task in that
order); if `process_order.delay` raises, the exception propagates unchanged
while the committed order row remains in the database. -/
theorem checkout_commit_before_enqueue (db : Db) (order : OrderCreate) (e : Exc)
    (tid : String) (p : Product)
    (h : findProduct db order.product_id = some p) :
    (checkout db order (.fail e)).1 = CheckoutOutcome.raised e ∧
    (⟨db.nextOrderId, order.product_id, order.quantity⟩ : OrderRow) ∈
      (checkout db order (.fail e)).2.1.orders ∧
    (checkout db order (.fail e)).2.2 =
      [CkEvent.commitOrder ⟨db.nextOrderId, order.product_id, order.quantity⟩] ∧
    (checkout db order (.ok tid)).2.2 =
      [CkEvent.commitOrder ⟨db.nextOrderId, order.product_id, order.quantity⟩,
       CkEvent.enqueueProcessOrder order.product_id order.quantity,
       CkEvent.addBackgroundTask db.nextOrderId] := by
  refine ⟨?_, ?_, ?_, ?_⟩ <;> simp [checkout, h]

/-- C10 witness: with a concrete database and a failing enqueue, the
exception propagates and the committed row survives. -/
theorem checkout_commit_before_enqueue_witness :
    findProduct ⟨[⟨1, "vinyl"⟩], [], 7⟩ 1 = some ⟨1, "vinyl"⟩ ∧
    (checkout ⟨[⟨1, "vinyl"⟩], [], 7⟩ ⟨1, 2⟩ (.fail ⟨"ConnectionError", "broker down"⟩)).1 =
      CheckoutOutcome.raised ⟨"ConnectionError", "broker down"⟩ ∧
    (⟨7, 1, 2⟩ : OrderRow) ∈
      (checkout ⟨[⟨1, "vinyl"⟩], [], 7⟩ ⟨1, 2⟩
        (.fail ⟨"ConnectionError", "broker down"⟩)).2.1.orders := by
  have h := checkout_commit_before_enqueue ⟨[⟨1, "vinyl"⟩], [], 7⟩ ⟨1, 2⟩
    ⟨"ConnectionError", "broker down"⟩ "t-1" ⟨1, "vinyl"⟩ (by decide)
  exact ⟨by decide, h.1, h.2.1⟩

/-! ## Structured logging (src/api/main.py, `JsonFormatter` and
`StructuredLogger`)

A log record is a flat key-value map.  A field value is either a
JSON-serializable scalar or an arbitrary Python object that `json.dumps`
cannot encode; `json.dumps` is called without a `default=` argument, so it
raises `TypeError` on the first non-encodable value instead of coercing it
to its string form. -/

/-- A field value of a log record: a JSON-serializable scalar, or an
arbitrary object (identified by its type name) that `json.dumps` rejects. -/
inductive PyLeaf
  | pyStr (v : String)
  | pyInt (v : Int)
  | pyNone
  | pyObj (typeName : String)
deriving DecidableEq, Repr

/-- Can `json.dumps` encode this value without a `default=` hook? -/
def serializableLeaf : PyLeaf → Bool
  | .pyObj _ => false
  | _ => true

/-- Encoding of one value by `json.dumps` (string escaping is elided: the
claims are about success versus `TypeError`, not about the byte-level
encoding). -/
def jsonLeaf : PyLeaf → Except String String
  | .pyStr v => .ok ("\"" ++ v ++ "\"")
  | .pyInt v => .ok (toString v)
  | .pyNone => .ok "null"
  | .pyObj t => .error ("Object of type " ++ t ++ " is not JSON serializable")

/-- Encoding of the entries of a dict by `json.dumps`: it aborts with the
`TypeError` of the first non-encodable value. -/
def jsonFields : List (String × PyLeaf) → Except String (List String)
  | [] => .ok []
  | (k, v) :: rest =>
      match jsonLeaf v with
      | .error msg => .error msg
      | .ok sv =>
          match jsonFields rest with
          | .error msg => .error msg
          | .ok srest => .ok (("\"" ++ k ++ "\": " ++ sv) :: srest)

/-- `json.dumps` on a flat dict, with no `default=` argument. -/
def jsonDumps (fields : List (String × PyLeaf)) : Except String String :=
  match jsonFields fields with
  | .error msg => .error msg
  | .ok parts => .ok ("\x7b" ++ String.intercalate ", " parts ++ "\x7d")

/-- `record.msg` as `JsonFormatter.format` inspects it: a dict (the
`StructuredLogger` path) or anything else, rendered through
`record.getMessage()` as a string. -/
inductive PyMsg
  | plain (text : String)
  | dict (fields : List (String × PyLeaf))
deriving DecidableEq, Repr

/-- Embedding of `JsonFormatter.format` (src/api/main.py lines 16-20): a
dict message is passed to `json.dumps` as is; any other message is wrapped
as `message`/`level` (both strings, hence always serializable). -/
def JsonFormatter_format (msg : PyMsg) (levelname : String) : Except String String :=
  match msg with
  | .dict fields => jsonDumps fields
  | .plain text => jsonDumps [("message", .pyStr text), ("level", .pyStr levelname)]

/-- Embedding of `StructuredLogger.info` (src/api/main.py lines 41-55) down
to the serialization boundary: it builds the `log_data` dict from the
message, the level, the ambient trace context (`None` ids without an active
span) and the caller's keyword fields, and hands that dict to the formatter.
Key collisions between caller fields and the fixed keys are not modelled:
they do not affect serializability. -/
def StructuredLogger_info (msg : String) (traceCtx : Option (String × String))
    (kwargs : List (String × PyLeaf)) : Except String String :=
  JsonFormatter_format
    (.dict ([("message", PyLeaf.pyStr msg),
             ("level", PyLeaf.pyStr "INFO"),
             ("trace_id", match traceCtx with
               | some tc => PyLeaf.pyStr tc.1
               | none => PyLeaf.pyNone),
             ("span_id", match traceCtx with
               | some tc => PyLeaf.pyStr tc.2
               | none => PyLeaf.pyNone)]
      ++ kwargs)) "INFO"

/-- Did serialization succeed? -/
def exceptIsOk {α : Type} : Except String α → Bool
  | .ok _ => true
  | .error _ => false

/-- `json.dumps` on a dict succeeds exactly when every value is
serializable. -/
theorem jsonFields_all_serializable (fields : List (String × PyLeaf)) :
    exceptIsOk (jsonFields fields) = fields.all (fun kv => serializableLeaf kv.2) := by
  induction fields with
  | nil => rfl
  | cons kv rest ih =>
      obtain ⟨k, v⟩ := kv
      rw [List.all_cons]
      cases v <;> cases hr : jsonFields rest <;>
        simp only [jsonFields, jsonLeaf, hr, exceptIsOk, serializableLeaf] at ih ⊢ <;>
        simp [← ih]

/-- `jsonDumps` succeeds exactly when the field encoding does. -/
theorem jsonDumps_ok (fields : List (String × PyLeaf)) :
    exceptIsOk (jsonDumps fields) = exceptIsOk (jsonFields fields) := by
  cases h : jsonFields fields <;> simp [jsonDumps, h, exceptIsOk]

/-- C7 counterexample: a log call whose caller-supplied field value is a
non-serializable object makes the serialization raise `TypeError` — the
value is not coerced to a string, so the record is not emitted as JSON. -/
theorem structured_log_nonserializable :
    StructuredLogger_info "request_processed" none [("payload", PyLeaf.pyObj "Response")] =
      Except.error "Object of type Response is not JSON serializable" := by
  simp [StructuredLogger_info, JsonFormatter_format, jsonDumps, jsonFields, jsonLeaf]

/-- C7 amended: emitting a structured log record serializes successfully
exactly when every caller-supplied field value is JSON-serializable; a
non-serializable value causes `json.dumps` to raise `TypeError` (there is no
coercion to string form), and only that failure mode exists. -/
theorem structured_log_serialization (msg : String) (traceCtx : Option (String × String))
    (kwargs : List (String × PyLeaf)) :
    exceptIsOk (StructuredLogger_info msg traceCtx kwargs) =
      kwargs.all (fun kv => serializableLeaf kv.2) := by
  cases traceCtx <;>
    simp [StructuredLogger_info, JsonFormatter_format, jsonDumps_ok,
      jsonFields_all_serializable, serializableLeaf, List.all_append]

end RecordStore
